import Mathlib

set_option autoImplicit false

namespace Dewi

/-!
Verification of the dewi-app video production pipeline
(`src/backend/app`): overlay escaping and timing, the FFmpeg command
assembly, the script cache, the render orchestrator and the TTS adapter.
Strings that the Python code manipulates character by character are
embedded as `List Char`; Python `str` slicing and `len` count code
points, exactly as `List Char` / `String.length` do.
-/

/-- The single-quote character, written by code point to keep the
development uniform with `bslash`. -/
def squote : Char := Char.ofNat 39

/-- The backslash character. -/
def bslash : Char := Char.ofNat 92

/-- Embedding of the first half of
`line.replace("'", "'\\''")` in `VideoService._build_text_filter`
(video_service.py line 173): every single quote becomes
quote, backslash, quote, quote. -/
def escQuotes : List Char → List Char
  | [] => []
  | c :: rest =>
    if c = squote then squote :: bslash :: squote :: squote :: escQuotes rest
    else c :: escQuotes rest

/-- Embedding of the second half of line 173,
`.replace(":", "\\:")`: every colon gets a backslash prepended. -/
def escColons : List Char → List Char
  | [] => []
  | c :: rest =>
    if c = ':' then bslash :: ':' :: escColons rest
    else c :: escColons rest

/-- The full escaping applied to each overlay line
(video_service.py line 173): quotes first, then colons. -/
def escapeLine (line : List Char) : List Char := escColons (escQuotes line)

/-- Modelled from the spec: the colon half of the unescape applied by the
player/toolchain (the code itself only escapes; spec section 4.2 requires a
corresponding unescape to reproduce the line byte-for-byte). A backslash
followed by a colon collapses back to the colon. -/
def unescColons : List Char → List Char
  | [] => []
  | [a] => [a]
  | a :: b :: rest =>
    if a = bslash ∧ b = ':' then ':' :: unescColons rest
    else a :: unescColons (b :: rest)

/-- Modelled from the spec: the quote half of the unescape. Every quote in
escaped text starts a quote, backslash, quote, quote block, which collapses
back to a single quote. -/
def unescQuotes : List Char → List Char
  | [] => []
  | [a] => [a]
  | [a, b] => [a, b]
  | [a, b, c] => [a, b, c]
  | a :: b :: c :: d :: rest =>
    if a = squote ∧ b = bslash ∧ c = squote ∧ d = squote then squote :: unescQuotes rest
    else a :: unescQuotes (b :: c :: d :: rest)

/-- Modelled from the spec: the full unescape, inverting `escapeLine`
stage by stage (colons first, then quotes). -/
def unescapeLine (line : List Char) : List Char := unescQuotes (unescColons line)

/-- A mascot cue entry, as produced by the script-generation capability
(claude_service.py `_mock_generate_script`): a dict with timestamp,
character and action entries, all opaque to the pipeline. -/
structure MascotCue where
  timestamp : String
  character : String
  action : String
deriving DecidableEq

/-- The duck-typed dict returned by the script-generation capability
(`claude_service.generate_video_script`) and consumed through
`.get(key, default)` by `generate_video` (videos.py lines 62-67) and by
`_assemble_video` (video_service.py lines 100-103). Each field is
`Option` because the parsed JSON may lack any key. -/
structure ScriptData where
  hook : Option String
  body : Option (List String)
  repeat_phrase : Option String
  mascot_cues : Option (List MascotCue)
  bg_suggestion : Option String
  audio_vibe : Option String
deriving DecidableEq

/-- One timed text overlay produced per line by the loop in
`VideoService._build_text_filter` (video_service.py lines 168-189):
escaped text, a font size, and the `enable=between(t,start,stop)`
window rendered into the drawtext filter. -/
structure TextCue where
  text : List Char
  fontSize : Nat
  start : ℚ
  stop : ℚ
deriving DecidableEq

/-- Font-size policy of video_service.py line 176:
`72 if len(line) < 30 else 56 if len(line) < 50 else 48`. -/
def fontSizeFor (line : String) : Nat :=
  if line.length < 30 then 72 else if line.length < 50 then 56 else 48

/-- The timing-and-size computation of `_build_text_filter`
(video_service.py lines 161-189): `line_duration = duration / len(text_lines)`;
cue `i` runs from `i * line_duration` to `(i + 1) * line_duration`, with
the escaping of line 173 and the size policy of line 176. Real arithmetic
is embedded as exact rational arithmetic. -/
def buildCues (textLines : List String) (duration : ℚ) : List TextCue :=
  let lineDuration := duration / (textLines.length : ℚ)
  textLines.enum.map fun p =>
    { text := escapeLine p.2.data
      fontSize := fontSizeFor p.2
      start := (p.1 : ℚ) * lineDuration
      stop := ((p.1 : ℚ) + 1) * lineDuration }

/-- The text lines assembled in `_assemble_video` (video_service.py
lines 100-107): `[hook] + body + ["🔁 " + repeat_phrase]`, with the
dict-access defaults of lines 100-102. -/
def assembleTextLines (script : ScriptData) : List String :=
  let hook := script.hook.getD "Did you know?"
  let body := script.body.getD ["Learning content here"]
  let rp := script.repeat_phrase.getD (body.headD "")
  hook :: body ++ ["🔁 " ++ rp]

/-- The cue list the assembler burns in for a script: `buildCues` over
`assembleTextLines` at the fixed 15-second duration
(video_service.py lines 104-108). -/
def scriptCueList (script : ScriptData) : List TextCue :=
  buildCues (assembleTextLines script) 15

/-- Number of overlay lines of a script (hook, body lines, repeat line). -/
def scriptLineCount (script : ScriptData) : Nat :=
  (assembleTextLines script).length

/-- The background table `VideoService.BG_VIDEOS`
(video_service.py lines 23-28). -/
def bgVideos : List (String × String) :=
  [("subway_surfers", "subway_surfers.mp4"),
   ("minecraft", "minecraft_parkour.mp4"),
   ("satisfying", "satisfying.mp4"),
   ("soap_cutting", "soap_cutting.mp4")]

/-- Background-asset resolution of video_service.py line 111:
`self.BG_VIDEOS.get(bg_type, "subway_surfers.mp4")`. -/
def bgVideoFor (bgType : String) : String :=
  (bgVideos.lookup bgType).getD "subway_surfers.mp4"

/-- The resolved on-disk background path, `assets_dir / "backgrounds" / bg_video`
(video_service.py line 112). -/
def bgPathFor (bgType : String) : String :=
  "data/assets/backgrounds/" ++ bgVideoFor bgType

/-- The lavfi solid-color source of video_service.py line 127:
`color=c=0x667eea:s=1080x1920:d=15` (WIDTH 1080, HEIGHT 1920, duration 15). -/
def colorSource : String := "color=c=0x667eea:s=1080x1920:d=15"

/-- `FFMPEG_PATH` after `VideoService.__init__` (video_service.py
lines 31-40): the ffmpeg-full binary when it exists, else plain ffmpeg. -/
def ffmpegBinary (ffmpegFullInstalled : Bool) : String :=
  if ffmpegFullInstalled then "/opt/homebrew/opt/ffmpeg-full/bin/ffmpeg" else "ffmpeg"

/-- The background input arguments of video_service.py lines 117-128:
loop the background video trimmed to 15 seconds when the asset file
exists, otherwise a solid-color lavfi source. -/
def assembleBgArgs (bgType : String) (bgFileExists : Bool) : List String :=
  if bgFileExists then
    ["-stream_loop", "-1", "-i", bgPathFor bgType, "-t", "15"]
  else
    ["-f", "lavfi", "-i", colorSource]

/-- The full FFmpeg command list built by `_assemble_video`
(video_service.py lines 114-154). `audioPresent` embeds
`audio_path and os.path.exists(audio_path)` (line 131); `textFilter` is
the drawtext filter string computed from `buildCues`. -/
def assembleCmd (ffmpegFullInstalled : Bool) (bgType : String) (bgFileExists : Bool)
    (audioPresent : Bool) (audioPath : String) (textFilter : String)
    (outputPath : String) : List String :=
  [ffmpegBinary ffmpegFullInstalled, "-y"]
    ++ assembleBgArgs bgType bgFileExists
    ++ (if audioPresent then
          ["-i", audioPath, "-vf", textFilter, "-map", "0:v", "-map", "1:a",
           "-shortest", "-c:v", "libx264", "-preset", "fast", "-crf", "23",
           "-c:a", "aac", "-b:a", "128k", outputPath]
        else
          ["-vf", textFilter, "-c:v", "libx264", "-preset", "fast", "-crf", "23",
           outputPath])

/-- Modelled from the spec: the duration semantics of the external media
toolchain invocation, which is not part of this repository. Spec section 4.3:
with an audio stream mapped and the shortest policy the output is trimmed to
the shorter of the (already looped/trimmed) background and the narration;
otherwise it lasts the background duration. -/
def toolchainOutputDuration (cmd : List String) (bgDur narrDur : ℚ) : ℚ :=
  if "-shortest" ∈ cmd ∧ ["-map", "1:a"] <:+: cmd then min bgDur narrDur else bgDur

/-- The `VOICES` table of tts_service.py lines 18-21. -/
def ttsVoices : List (String × String) :=
  [("seal", "EXAVITQu4vr4xnSDxMaL"), ("penguin", "pNInz6obpgDQGcFmaJgB")]

/-- The request actually submitted to the TTS provider by
`TTSService.text_to_speech` (tts_service.py lines 63-67): the text is cut
to its first 5000 code points when longer (`text = text[:5000]`), and the
voice resolves through `VOICES.get(voice, VOICES["seal"])`. -/
def ttsSubmission (text : List Char) (voice : String) : List Char × String :=
  let t := if text.length > 5000 then text.take 5000 else text
  (t, (ttsVoices.lookup voice).getD "EXAVITQu4vr4xnSDxMaL")

/-- Embedding of `TTSService.text_to_speech` (tts_service.py lines 42-103)
at the request level: `none` when no API key is configured (line 59) or when
the provider call fails (lines 96-103, modelled by `providerOk`); otherwise
the submitted request. No branch inspects the text length except the
truncation inside `ttsSubmission`. -/
def textToSpeech (apiKeyPresent : Bool) (text : List Char) (voice : String)
    (providerOk : Bool) : Option (List Char × String) :=
  if !apiKeyPresent then none
  else if providerOk then some (ttsSubmission text voice) else none

/-- A stored fact, as read by `generate_video` (videos.py lines 41, 63-64, 70):
only the `fact` text and the `srs_status` entry are consumed. Fact ids are
`uuid.uuid4()` strings (ingestion.py line 66). -/
structure FactRec where
  fact : String
  srs_status : String
deriving DecidableEq

/-- The script dict built by `generate_video` (videos.py lines 59-69). -/
structure Script where
  id : String
  fact_id : String
  hook : String
  body : List String
  repeat_phrase : String
  mascot_cues : List MascotCue
  background : String
  audio_vibe : String
  duration_seconds : Nat
deriving DecidableEq

/-- The video record built by `generate_video` (videos.py lines 56-75). -/
structure Video where
  id : String
  fact_id : String
  script : Script
  srs_status : String
  loop_count : Nat
  vibe : String
  render_status : String
  ai_available : Bool
deriving DecidableEq

/-- The render-result dict built by `render_video` (videos.py lines 113-164).
Keys that the code only sometimes sets are `Option` fields (absent = `none`). -/
structure RenderResult where
  render_id : String
  video_id : String
  status : String
  ffmpegService : Bool
  ttsService : Bool
  narration_text : String
  audio_generated : Option Bool
  audio_path : Option String
  video_path : Option String
  message : Option String
deriving DecidableEq

/-- The shared in-memory stores: `extracted_facts` (ingestion.py line 15),
`generated_videos` and `rendered_videos` (videos.py lines 18-19), embedded
as association lists with Python-dict lookup semantics. -/
structure PipelineState where
  facts : List (String × FactRec)
  generated : List (String × Video)
  rendered : List (String × RenderResult)
deriving DecidableEq

/-- Dict insertion: the new binding shadows any older one. -/
def insertEntry {α : Type} (m : List (String × α)) (k : String) (v : α) :
    List (String × α) := (k, v) :: m

/-- An HTTPException raised by an endpoint. -/
structure ApiError where
  code : Nat
  detail : String
deriving DecidableEq

/-- The cache key of videos.py line 44: `f"{request.fact_id}_{request.vibe}"`. -/
def cacheKeyOf (factId vibe : String) : String := factId ++ "_" ++ vibe

/-- The script dict assembled from the capability output with the
per-field defaults of videos.py lines 60-68. -/
def buildScript (videoId factId factText : String) (d : ScriptData) : Script :=
  { id := videoId
    fact_id := factId
    hook := d.hook.getD "Okay but like..."
    body := d.body.getD [factText]
    repeat_phrase := d.repeat_phrase.getD (factText.take 40)
    mascot_cues := d.mascot_cues.getD []
    background := d.bg_suggestion.getD "subway_surfers"
    audio_vibe := d.audio_vibe.getD "phonk"
    duration_seconds := 15 }

/-- Environment of a `generate_video` call: what the script-generation
capability would return, and `claude_service.is_available`. -/
structure GenEnv where
  scriptData : ScriptData
  aiAvailable : Bool
deriving DecidableEq

/-- Embedding of the `generate_video` endpoint (videos.py lines 33-81).
`freshId` stands for the `uuid.uuid4()` video id. The returned `Bool`
records whether the script-generation capability was invoked (the
`claude_service.generate_video_script` await on line 49). -/
def generateVideo (st : PipelineState) (factId vibe : String) (env : GenEnv)
    (freshId : String) : Except ApiError (Video × PipelineState × Bool) :=
  match st.facts.lookup factId with
  | none => .error ⟨404, "Fact not found"⟩
  | some factRec =>
    match st.generated.lookup (cacheKeyOf factId vibe) with
    | some video => .ok (video, st, false)
    | none =>
      let video : Video :=
        { id := freshId
          fact_id := factId
          script := buildScript freshId factId factRec.fact env.scriptData
          srs_status := factRec.srs_status
          loop_count := 0
          vibe := vibe
          render_status := "pending"
          ai_available := env.aiAvailable }
      let generated9 :=
        insertEntry (insertEntry st.generated (cacheKeyOf factId vibe) video)
          freshId video
      .ok (video, { st with generated := generated9 }, true)

/-- Environment of a render call: the availability probes and the outcomes
of the external TTS and FFmpeg invocations. -/
structure RenderEnv where
  ffmpegAvailable : Bool
  ttsAvailable : Bool
  ttsSucceeds : Bool
  assembleSucceeds : Bool
deriving DecidableEq

/-- The narration text of videos.py lines 109-110:
`f"{hook}... {body joined by space}. Remember: {repeat_phrase}!"`. -/
def narrationTextOf (script : Script) : String :=
  script.hook ++ "... " ++ String.intercalate " " script.body
    ++ ". Remember: " ++ script.repeat_phrase ++ "!"

/-- The truncated preview of videos.py line 118:
`narration[:200] + "..." if len(narration) > 200 else narration`. -/
def narrationPreviewOf (narration : String) : String :=
  if narration.length > 200 then narration.take 200 ++ "..." else narration

/-- The placeholder-artifact path of `_create_placeholder_video`
(video_service.py line 208): `data/videos/{output_name}_pending.json`. -/
def placeholderPathFor (outputName : String) : String :=
  "data/videos/" ++ outputName ++ "_pending.json"

/-- The media output path of `create_video` (video_service.py line 81). -/
def mediaPathFor (outputName : String) : String :=
  "data/videos/" ++ outputName ++ ".mp4"

/-- The narration audio path of videos.py lines 125 and 152. -/
def audioPathFor (renderId : String) : String :=
  "data/audio/" ++ renderId ++ ".mp3"

/-- Embedding of `VideoService.create_video` (video_service.py lines 57-89),
with its `Optional[str]` return type: the placeholder path when FFmpeg is
unavailable (line 76), the media path on success (line 86), the placeholder
path again when `_assemble_video` raises (line 89). -/
def createVideo (ffmpegAvailable assembleSucceeds : Bool) (outputName : String) :
    Option String :=
  if !ffmpegAvailable then some (placeholderPathFor outputName)
  else if assembleSucceeds then some (mediaPathFor outputName)
  else some (placeholderPathFor outputName)

/-- Embedding of the `render_video` endpoint (videos.py lines 84-164).
`renderId` stands for the fresh `uuid.uuid4()` render id. The dead branch
in which `create_video` would return `None` is kept as a 500 error, since
line 145 dereferences the returned path with `.endswith(".mp4")`. -/
def renderVideo (st : PipelineState) (videoId : String) (includeAudio : Bool)
    (voice : String) (env : RenderEnv) (renderId : String) :
    Except ApiError (RenderResult × PipelineState) :=
  match st.generated.lookup videoId with
  | none => .error ⟨404, "Video not found. Generate first."⟩
  | some video =>
    let base : RenderResult :=
      { render_id := renderId
        video_id := videoId
        status := "processing"
        ffmpegService := env.ffmpegAvailable
        ttsService := env.ttsAvailable
        narration_text := narrationPreviewOf (narrationTextOf video.script)
        audio_generated := none
        audio_path := none
        video_path := none
        message := none }
    if env.ffmpegAvailable then
      let withAudio : RenderResult :=
        if includeAudio && env.ttsAvailable then
          if env.ttsSucceeds then
            { base with audio_generated := some true
                        audio_path := some (audioPathFor renderId) }
          else { base with audio_generated := some false }
        else base
      match createVideo env.ffmpegAvailable env.assembleSucceeds renderId with
      | none => .error ⟨500, "NoneType has no attribute endswith"⟩
      | some videoPath =>
        let result : RenderResult :=
          { withAudio with
            video_path := some videoPath
            status := if videoPath.endsWith ".mp4" then "complete" else "pending_ffmpeg" }
        .ok (result, { st with rendered := insertEntry st.rendered renderId result })
    else
      let withMsg : RenderResult :=
        { base with status := "pending_ffmpeg"
                    message := some "Install FFmpeg: brew install ffmpeg" }
      let final : RenderResult :=
        if includeAudio && env.ttsAvailable && env.ttsSucceeds then
          { withMsg with audio_generated := some true
                         audio_path := some (audioPathFor renderId) }
        else withMsg
      .ok (final, { st with rendered := insertEntry st.rendered renderId final })

/-- Embedding of the `get_video` endpoint (videos.py lines 250-256). -/
def getVideo (st : PipelineState) (videoId : String) : Except ApiError Video :=
  match st.generated.lookup videoId with
  | none => .error ⟨404, "Video not found"⟩
  | some v => .ok v

/-- Concrete fact used by the closed witnesses. -/
def exFact : FactRec := { fact := "Bees dance to communicate", srs_status := "new" }

/-- A fully populated capability output, so no dict default fires. -/
def exScriptData : ScriptData :=
  { hook := some "NO WAY"
    body := some ["Bees waggle", "It is a map"]
    repeat_phrase := some "bees waggle maps"
    mascot_cues := some []
    bg_suggestion := some "minecraft"
    audio_vibe := some "phonk" }

/-- Generation environment used by the closed witnesses. -/
def exGenEnv : GenEnv := { scriptData := exScriptData, aiAvailable := false }

/-- Initial store: one fact, nothing generated or rendered. -/
def exState0 : PipelineState := { facts := [("f1", exFact)], generated := [], rendered := [] }

/-- The video produced by `generateVideo exState0 "f1" "hype" exGenEnv "vid-1"`. -/
def exVideo1 : Video :=
  { id := "vid-1"
    fact_id := "f1"
    script := buildScript "vid-1" "f1" exFact.fact exGenEnv.scriptData
    srs_status := "new"
    loop_count := 0
    vibe := "hype"
    render_status := "pending"
    ai_available := false }

/-- The store after that first generation. -/
def exState1 : PipelineState :=
  { exState0 with
    generated := insertEntry (insertEntry exState0.generated (cacheKeyOf "f1" "hype") exVideo1)
      "vid-1" exVideo1 }

/-- A render environment with the media toolchain absent. -/
def noToolchainEnv : RenderEnv :=
  { ffmpegAvailable := false, ttsAvailable := false, ttsSucceeds := false,
    assembleSucceeds := false }

/-- The render result of a toolchain-absent render of `exVideo1`. -/
def exRender (renderId : String) : RenderResult :=
  { render_id := renderId
    video_id := "vid-1"
    status := "pending_ffmpeg"
    ffmpegService := false
    ttsService := false
    narration_text := narrationPreviewOf (narrationTextOf exVideo1.script)
    audio_generated := none
    audio_path := none
    video_path := none
    message := some "Install FFmpeg: brew install ffmpeg" }

/-- Store after one toolchain-absent render of `exVideo1` under id r1. -/
def exStateR1 : PipelineState :=
  { exState1 with rendered := insertEntry exState1.rendered "r1" (exRender "r1") }

/-- Store after a second toolchain-absent render under id r2. -/
def exStateR2 : PipelineState :=
  { exStateR1 with rendered := insertEntry exStateR1.rendered "r2" (exRender "r2") }

theorem buildCues_getElem (ls : List String) (d : ℚ) (i : ℕ) :
    (buildCues ls d)[i]? = ls[i]?.map fun line =>
      { text := escapeLine line.data
        fontSize := fontSizeFor line
        start := (i : ℚ) * (d / (ls.length : ℚ))
        stop := ((i : ℚ) + 1) * (d / (ls.length : ℚ)) } := by
  simp only [buildCues, List.getElem?_map, List.getElem?_enum]
  cases ls[i]? <;> simp

theorem scriptLineCount_pos (script : ScriptData) : 0 < scriptLineCount script := by
  simp [scriptLineCount, assembleTextLines]

/-- C2: for every script, the overlay-timing engine produces exactly `n`
cues (`n` = hook + body lines + repeat line); cue `i` runs over
`[i * (15 / n), (i + 1) * (15 / n))`; each window is nonempty, the first
starts at 0, the last ends at exactly 15, and consecutive windows share
their boundary, so the windows tile `[0, 15)` with no gap or overlap. -/
theorem overlay_timing_partition (script : ScriptData) :
    (scriptCueList script).length = scriptLineCount script ∧
    (∀ i, i < scriptLineCount script →
      (scriptCueList script)[i]?.map TextCue.start
          = some ((i : ℚ) * (15 / (scriptLineCount script : ℚ))) ∧
      (scriptCueList script)[i]?.map TextCue.stop
          = some (((i : ℚ) + 1) * (15 / (scriptLineCount script : ℚ))) ∧
      (i : ℚ) * (15 / (scriptLineCount script : ℚ))
          < ((i : ℚ) + 1) * (15 / (scriptLineCount script : ℚ))) ∧
    (scriptCueList script)[0]?.map TextCue.start = some 0 ∧
    (scriptCueList script)[scriptLineCount script - 1]?.map TextCue.stop = some 15 ∧
    (∀ i, i + 1 < scriptLineCount script →
      (scriptCueList script)[i]?.map TextCue.stop
        = (scriptCueList script)[i + 1]?.map TextCue.start) := by
  have hn : 0 < scriptLineCount script := scriptLineCount_pos script
  have hq : ((scriptLineCount script : ℚ)) ≠ 0 := Nat.cast_ne_zero.mpr hn.ne'
  have hqpos : (0 : ℚ) < (scriptLineCount script : ℚ) := by exact_mod_cast hn
  have hd : (0 : ℚ) < 15 / (scriptLineCount script : ℚ) := by positivity
  have hget : ∀ i, i < scriptLineCount script →
      (scriptCueList script)[i]?.map TextCue.start
          = some ((i : ℚ) * (15 / (scriptLineCount script : ℚ))) ∧
      (scriptCueList script)[i]?.map TextCue.stop
          = some (((i : ℚ) + 1) * (15 / (scriptLineCount script : ℚ))) := by
    intro i hi
    have hlt : i < (assembleTextLines script).length := hi
    have h1 : (assembleTextLines script)[i]? = some (assembleTextLines script)[i] :=
      List.getElem?_eq_getElem hlt
    rw [scriptCueList, buildCues_getElem, h1]
    constructor <;> simp [scriptLineCount]
  refine ⟨?_, fun i hi => ⟨(hget i hi).1, (hget i hi).2, ?_⟩, ?_, ?_, ?_⟩
  · simp [scriptCueList, buildCues, scriptLineCount]
  · have : (i : ℚ) < (i : ℚ) + 1 := lt_add_one _
    exact mul_lt_mul_of_pos_right this hd
  · have h0 := (hget 0 hn).1
    simpa using h0
  · have hlt : scriptLineCount script - 1 < scriptLineCount script := by omega
    have h := (hget (scriptLineCount script - 1) hlt).2
    rw [h]
    congr 1
    have hcast : ((scriptLineCount script - 1 : ℕ) : ℚ)
        = (scriptLineCount script : ℚ) - 1 := by
      have h1 : (1 : ℕ) ≤ scriptLineCount script := hn
      push_cast [Nat.cast_sub h1]
      ring
    rw [hcast]
    field_simp
  · intro i hi
    have hstop := (hget i (by omega)).2
    have hstart := (hget (i + 1) hi).1
    rw [hstop, hstart]
    congr 1
    push_cast
    ring

/-- C2 witness: the concrete four-line script has four cues and its second
cue starts at `1 * (15 / 4)`. -/
theorem overlay_timing_partition_witness :
    (scriptCueList exScriptData).length = scriptLineCount exScriptData ∧
    (scriptCueList exScriptData)[1]?.map TextCue.start
      = some ((1 : ℚ) * (15 / (scriptLineCount exScriptData : ℚ))) :=
  ⟨(overlay_timing_partition exScriptData).1,
   (((overlay_timing_partition exScriptData).2.1 1 (by decide)).1)⟩

/-- C8: the narration synthesizer truncates every over-long text to its
first 5000 units before submission and never rejects an input for its
length: the call behaves exactly as on the pre-truncated text, the
submitted text is `text.take 5000` (the text itself when short), and with
the key configured and the provider up the call always goes through. -/
theorem tts_truncates_never_rejects (text : List Char) (voice : String)
    (providerOk : Bool) :
    textToSpeech true text voice providerOk
      = textToSpeech true (text.take 5000) voice providerOk ∧
    (∀ call, textToSpeech true text voice providerOk = some call →
      call.1 = text.take 5000 ∧ call.1.length ≤ 5000) ∧
    (providerOk = true → (textToSpeech true text voice providerOk).isSome = true) := by
  have hsub : (ttsSubmission text voice).1 = text.take 5000 := by
    rw [ttsSubmission]
    by_cases h : text.length > 5000
    · simp [h]
    · simp only [h, if_false]
      exact (List.take_of_length_le (by omega)).symm
  refine ⟨?_, ?_, ?_⟩
  · rcases providerOk with _ | _
    · simp [textToSpeech]
    · have h2 : (ttsSubmission (text.take 5000) voice).1 = text.take 5000 := by
        rw [ttsSubmission]
        have hl : (text.take 5000).length ≤ 5000 := by
          simp [List.length_take]
        simp [Nat.not_lt.mpr hl]
      have hv : (ttsSubmission text voice).2 = (ttsSubmission (text.take 5000) voice).2 := by
        simp [ttsSubmission]
      have heq : ttsSubmission text voice = ttsSubmission (text.take 5000) voice := by
        rw [Prod.ext_iff]
        exact ⟨hsub.trans h2.symm, hv⟩
      simp [textToSpeech, heq]
  · intro call hcall
    rcases providerOk with _ | _ <;> simp [textToSpeech] at hcall
    rw [← hcall]
    refine ⟨hsub, ?_⟩
    rw [hsub]
    simp [List.length_take]
  · intro h
    subst h
    simp [textToSpeech]

/-- C8 witness: a concrete short text with the key configured and the
provider up is accepted. -/
theorem tts_truncates_never_rejects_witness :
    (textToSpeech true ['h', 'i'] "seal" true).isSome = true :=
  (tts_truncates_never_rejects ['h', 'i'] "seal" true).2.2 rfl

/-- C9: despite the `Optional[str]` annotation, `create_video` returns a
path on every branch: the media path when FFmpeg is present and assembly
succeeds, the placeholder path otherwise, never `None`; so the caller's
suffix check on the result cannot dereference `None`. -/
theorem create_video_never_none (ffmpegAvailable assembleSucceeds : Bool)
    (outputName : String) :
    ∃ p, createVideo ffmpegAvailable assembleSucceeds outputName = some p ∧
      (p = mediaPathFor outputName ∨ p = placeholderPathFor outputName) := by
  rcases ffmpegAvailable with _ | _ <;> rcases assembleSucceeds with _ | _ <;>
    simp [createVideo]

theorem bgPathFor_data_head (bgType : String) :
    (bgPathFor bgType).data.head? = some 'd' := by
  have h : ("data/assets/backgrounds/" : String).data
      = 'd' :: ("ata/assets/backgrounds/" : String).data := rfl
  rw [bgPathFor, String.data_append, h]
  rfl

theorem bgPathFor_ne (bgType s : String) (hs : s.data.head? ≠ some 'd') :
    bgPathFor bgType ≠ s :=
  fun h => hs (h ▸ bgPathFor_data_head bgType)

/-- C4: with the toolchain present and narration audio on disk, the single
FFmpeg invocation maps video from input 0 (the background, trimmed or
generated at 15 seconds) and audio from input 1 (the narration) under the
shortest policy, so the modelled output duration is
`min(background_duration, narration_duration)`; without narration the
command maps no audio stream, carries no audio codec and no shortest flag,
and the modelled output duration is exactly 15 seconds. -/
theorem assemble_mux_policy (ffFull : Bool) (bgType : String) (bgExists : Bool)
    (audioPath tf out : String) (narrDur : ℚ)
    (htf1 : tf ≠ "-map") (htf2 : tf ≠ "-shortest") (htf3 : tf ≠ "-c:a")
    (hout1 : out ≠ "-map") (hout2 : out ≠ "-shortest") (hout3 : out ≠ "-c:a") :
    (["-map", "0:v", "-map", "1:a", "-shortest"]
        <:+: assembleCmd ffFull bgType bgExists true audioPath tf out) ∧
    (["-i", audioPath] <:+: assembleCmd ffFull bgType bgExists true audioPath tf out) ∧
    (bgExists = true →
      ["-t", "15"] <:+: assembleCmd ffFull bgType bgExists true audioPath tf out) ∧
    (bgExists = false →
      ["-i", colorSource] <:+: assembleCmd ffFull bgType bgExists true audioPath tf out) ∧
    toolchainOutputDuration (assembleCmd ffFull bgType bgExists true audioPath tf out)
        15 narrDur = min 15 narrDur ∧
    "-map" ∉ assembleCmd ffFull bgType bgExists false audioPath tf out ∧
    "-shortest" ∉ assembleCmd ffFull bgType bgExists false audioPath tf out ∧
    "-c:a" ∉ assembleCmd ffFull bgType bgExists false audioPath tf out ∧
    toolchainOutputDuration (assembleCmd ffFull bgType bgExists false audioPath tf out)
        15 narrDur = 15 := by
  have hbg1 : bgPathFor bgType ≠ "-map" := bgPathFor_ne bgType "-map" (by decide)
  have hbg2 : bgPathFor bgType ≠ "-shortest" := bgPathFor_ne bgType "-shortest" (by decide)
  have hbg3 : bgPathFor bgType ≠ "-c:a" := bgPathFor_ne bgType "-c:a" (by decide)
  have hrun : ["-map", "0:v", "-map", "1:a", "-shortest"]
      <:+: assembleCmd ffFull bgType bgExists true audioPath tf out := by
    refine ⟨[ffmpegBinary ffFull, "-y"] ++ assembleBgArgs bgType bgExists
      ++ ["-i", audioPath, "-vf", tf],
      ["-c:v", "libx264", "-preset", "fast", "-crf", "23", "-c:a", "aac",
       "-b:a", "128k", out], ?_⟩
    simp [assembleCmd]
  have hnomap : "-map" ∉ assembleCmd ffFull bgType bgExists false audioPath tf out := by
    rcases ffFull with _ | _ <;> rcases bgExists with _ | _ <;>
      (simp [assembleCmd, assembleBgArgs, ffmpegBinary, Ne.symm htf1, Ne.symm hout1,
        Ne.symm hbg1]
       try decide)
  have hnoshort : "-shortest" ∉ assembleCmd ffFull bgType bgExists false audioPath tf out := by
    rcases ffFull with _ | _ <;> rcases bgExists with _ | _ <;>
      (simp [assembleCmd, assembleBgArgs, ffmpegBinary, Ne.symm htf2, Ne.symm hout2,
        Ne.symm hbg2]
       try decide)
  have hnoca : "-c:a" ∉ assembleCmd ffFull bgType bgExists false audioPath tf out := by
    rcases ffFull with _ | _ <;> rcases bgExists with _ | _ <;>
      (simp [assembleCmd, assembleBgArgs, ffmpegBinary, Ne.symm htf3, Ne.symm hout3,
        Ne.symm hbg3]
       try decide)
  refine ⟨hrun, ?_, ?_, ?_, ?_, hnomap, hnoshort, hnoca, ?_⟩
  · refine ⟨[ffmpegBinary ffFull, "-y"] ++ assembleBgArgs bgType bgExists,
      ["-vf", tf, "-map", "0:v", "-map", "1:a", "-shortest", "-c:v", "libx264",
       "-preset", "fast", "-crf", "23", "-c:a", "aac", "-b:a", "128k", out], ?_⟩
    simp [assembleCmd]
  · intro h
    subst h
    refine ⟨[ffmpegBinary ffFull, "-y", "-stream_loop", "-1", "-i", bgPathFor bgType],
      ["-i", audioPath, "-vf", tf, "-map", "0:v", "-map", "1:a", "-shortest",
       "-c:v", "libx264", "-preset", "fast", "-crf", "23", "-c:a", "aac",
       "-b:a", "128k", out], ?_⟩
    simp [assembleCmd, assembleBgArgs]
  · intro h
    subst h
    refine ⟨[ffmpegBinary ffFull, "-y", "-f", "lavfi"],
      ["-i", audioPath, "-vf", tf, "-map", "0:v", "-map", "1:a", "-shortest",
       "-c:v", "libx264", "-preset", "fast", "-crf", "23", "-c:a", "aac",
       "-b:a", "128k", out], ?_⟩
    simp [assembleCmd, assembleBgArgs]
  · rw [toolchainOutputDuration, if_pos]
    refine ⟨hrun.subset (by decide), ?_⟩
    exact List.IsInfix.trans ⟨["-map", "0:v"], ["-shortest"], rfl⟩ hrun
  · rw [toolchainOutputDuration, if_neg]
    exact fun hx => hnoshort hx.1

/-- C4 witness: at a concrete invocation with the toolchain present,
a background on disk and a 9-second narration, the modelled output
duration is `min 15 9`. -/
theorem assemble_mux_policy_witness :
    toolchainOutputDuration
      (assembleCmd false "x" true true "data/audio/r.mp3" "tfstring" "data/videos/r.mp4")
      15 9 = min 15 9 :=
  (assemble_mux_policy false "x" true "data/audio/r.mp3" "tfstring" "data/videos/r.mp4" 9
    (by decide) (by decide) (by decide) (by decide) (by decide) (by decide)).2.2.2.2.1

/-- C10: a background name outside the four-key table resolves to the
subway_surfers asset file as the candidate background; when that asset
file exists the command uses it as the looped input and carries no
solid-color source, and the solid-color substitute appears exactly when
the resolved asset file is missing. -/
theorem background_fallback (bgType : String) (ffFull bgExists audioPresent : Bool)
    (audioPath tf out : String)
    (hk : bgType ∉ ["subway_surfers", "minecraft", "satisfying", "soap_cutting"])
    (htf : tf ≠ colorSource) (hout : out ≠ colorSource) (hap : audioPath ≠ colorSource) :
    bgVideoFor bgType = "subway_surfers.mp4" ∧
    (bgExists = true →
      ["-i", "data/assets/backgrounds/subway_surfers.mp4"]
        <:+: assembleCmd ffFull bgType bgExists audioPresent audioPath tf out) ∧
    (bgExists = true →
      colorSource ∉ assembleCmd ffFull bgType bgExists audioPresent audioPath tf out) ∧
    (bgExists = false →
      colorSource ∈ assembleCmd ffFull bgType bgExists audioPresent audioPath tf out) := by
  simp only [List.mem_cons, List.mem_singleton, not_or] at hk
  obtain ⟨hk1, hk2, hk3, hk4, -⟩ := hk
  have b1 : (bgType == "subway_surfers") = false := beq_eq_false_iff_ne.mpr hk1
  have b2 : (bgType == "minecraft") = false := beq_eq_false_iff_ne.mpr hk2
  have b3 : (bgType == "satisfying") = false := beq_eq_false_iff_ne.mpr hk3
  have b4 : (bgType == "soap_cutting") = false := beq_eq_false_iff_ne.mpr hk4
  have hbgv : bgVideoFor bgType = "subway_surfers.mp4" := by
    simp [bgVideoFor, bgVideos, List.lookup, b1, b2, b3, b4]
  have hpath : bgPathFor bgType = "data/assets/backgrounds/subway_surfers.mp4" := by
    rw [bgPathFor, hbgv]
    decide
  have hbgc : bgPathFor bgType ≠ colorSource := bgPathFor_ne bgType colorSource (by decide)
  refine ⟨hbgv, ?_, ?_, ?_⟩
  · intro h
    subst h
    refine ⟨[ffmpegBinary ffFull, "-y", "-stream_loop", "-1"],
      ["-t", "15"] ++ (if audioPresent then
          ["-i", audioPath, "-vf", tf, "-map", "0:v", "-map", "1:a",
           "-shortest", "-c:v", "libx264", "-preset", "fast", "-crf", "23",
           "-c:a", "aac", "-b:a", "128k", out]
        else
          ["-vf", tf, "-c:v", "libx264", "-preset", "fast", "-crf", "23", out]), ?_⟩
    rw [← hpath]
    simp [assembleCmd, assembleBgArgs]
  · intro h
    subst h
    rcases ffFull with _ | _ <;> rcases audioPresent with _ | _ <;>
      (simp [assembleCmd, assembleBgArgs, ffmpegBinary, Ne.symm htf, Ne.symm hout,
        Ne.symm hap, Ne.symm hbgc]
       try decide)
  · intro h
    subst h
    rcases audioPresent with _ | _ <;> simp [assembleCmd, assembleBgArgs]

/-- C10 witness: the unknown name bedrock resolves to the subway_surfers
asset file. -/
theorem background_fallback_witness : bgVideoFor "bedrock" = "subway_surfers.mp4" :=
  (background_fallback "bedrock" false true false "a" "t" "o" (by decide) (by decide)
    (by decide) (by decide)).1

theorem escColons_head_ne_colon (l : List Char) (b : Char) (rest : List Char)
    (h : escColons l = b :: rest) : b ≠ ':' := by
  cases l with
  | nil => simp [escColons] at h
  | cons c r =>
    by_cases hc : c = ':'
    · subst hc
      simp only [escColons, if_pos, List.cons.injEq] at h
      intro hb
      rw [← h.1] at hb
      exact absurd hb (by decide)
    · simp only [escColons, if_neg hc, List.cons.injEq] at h
      intro hb
      exact hc (h.1 ▸ hb)

theorem escColons_nil_iff (l : List Char) : escColons l = [] ↔ l = [] := by
  cases l with
  | nil => simp [escColons]
  | cons c r =>
    constructor
    · intro h
      by_cases hc : c = ':' <;> simp [escColons, hc] at h
    · intro h
      exact absurd h (by simp)

theorem unescColons_escColons (l : List Char) : unescColons (escColons l) = l := by
  induction l with
  | nil => rfl
  | cons c r ih =>
    by_cases hc : c = ':'
    · subst hc
      simp [escColons, unescColons, ih]
    · simp only [escColons, if_neg hc]
      rcases hE : escColons r with _ | ⟨b, rest⟩
      · rw [(escColons_nil_iff r).mp hE]
        simp [escColons, unescColons]
      · have hb : b ≠ ':' := escColons_head_ne_colon r b rest hE
        have hcond : ¬(c = bslash ∧ b = ':') := fun hx => hb hx.2
        rw [show unescColons (c :: b :: rest) = c :: unescColons (b :: rest) from by
          simp [unescColons, hcond]]
        rw [← hE, ih]

theorem unescQuotes_escQuotes (l : List Char) : unescQuotes (escQuotes l) = l := by
  induction l with
  | nil => rfl
  | cons c r ih =>
    by_cases hc : c = squote
    · subst hc
      simp [escQuotes, unescQuotes, ih]
    · simp only [escQuotes, if_neg hc]
      rcases hE : escQuotes r with _ | ⟨b, _ | ⟨c2, _ | ⟨d, rest⟩⟩⟩
      · rw [hE] at ih
        simp only [unescQuotes] at ih
        simp only [unescQuotes]
        rw [← ih]
      · rw [hE] at ih
        simp only [unescQuotes] at ih
        simp only [unescQuotes]
        rw [← ih]
      · rw [hE] at ih
        simp only [unescQuotes] at ih
        simp only [unescQuotes]
        rw [← ih]
      · rw [hE] at ih
        have hcond : ¬(c = squote ∧ b = bslash ∧ c2 = squote ∧ d = squote) :=
          fun hx => hc hx.1
        simp only [unescQuotes, if_neg hcond]
        rw [ih]

/-- C5: for every overlay line, including lines with quote and colon
characters, the escaping applied by `_build_text_filter` is lossless:
the modelled unescape maps the escaped text back to the original line
byte-for-byte, so the escaping is injective. -/
theorem overlay_escaping_lossless :
    (∀ line : List Char, unescapeLine (escapeLine line) = line) ∧
    Function.Injective escapeLine := by
  have h : ∀ line : List Char, unescapeLine (escapeLine line) = line := by
    intro line
    rw [unescapeLine, escapeLine, unescColons_escColons, unescQuotes_escQuotes]
  exact ⟨h, fun a b hab => by rw [← h a, hab, h b]⟩

/-- C5 witness: a concrete line holding a quote and a colon survives the
escape/unescape round trip unchanged. -/
theorem overlay_escaping_lossless_witness :
    unescapeLine (escapeLine (squote :: ':' :: 'a' :: [])) =
      squote :: ':' :: 'a' :: [] :=
  overlay_escaping_lossless.1 (squote :: ':' :: 'a' :: [])

theorem lookup_insert_self {α : Type} (m : List (String × α)) (k : String) (v : α) :
    (insertEntry m k v).lookup k = some v := by
  simp [insertEntry, List.lookup]

theorem lookup_insert_ne {α : Type} (m : List (String × α)) (k k9 : String) (v : α)
    (h : k9 ≠ k) : (insertEntry m k v).lookup k9 = m.lookup k9 := by
  simp [insertEntry, List.lookup, beq_eq_false_iff_ne.mpr h]

theorem lookup_ne_of_some_none {α : Type} (m : List (String × α)) (k k9 : String)
    (v : α) (h1 : m.lookup k = some v) (h2 : m.lookup k9 = none) : k ≠ k9 := by
  intro h
  rw [h, h2] at h1
  exact Option.noConfusion h1

theorem underscore_mem_cacheKey (a b : String) : '_' ∈ (cacheKeyOf a b).data := by
  simp [cacheKeyOf, String.data_append]

theorem renderVideo_ok_inv (st : PipelineState) (videoId voice renderId : String)
    (includeAudio : Bool) (env : RenderEnv) (r : RenderResult) (st9 : PipelineState)
    (h : renderVideo st videoId includeAudio voice env renderId = .ok (r, st9)) :
    r.render_id = renderId ∧
    st9 = { st with rendered := insertEntry st.rendered renderId r } := by
  unfold renderVideo at h
  split at h
  · simp at h
  · all_goals try split at h
    all_goals try split at h
    all_goals try split at h
    all_goals try split at h
    all_goals try split at h
    all_goals
      first
        | (simp at h
           obtain ⟨h1, h2⟩ := h
           subst h1
           subst h2
           exact ⟨rfl, rfl⟩)
        | simp at h

theorem generateVideo_hit (st : PipelineState) (factId vibe freshId : String)
    (env : GenEnv) (fr : FactRec) (v : Video)
    (hf : st.facts.lookup factId = some fr)
    (hc : st.generated.lookup (cacheKeyOf factId vibe) = some v) :
    generateVideo st factId vibe env freshId = .ok (v, st, false) := by
  unfold generateVideo
  rw [hf, hc]

theorem generateVideo_hit_inv (st : PipelineState) (factId vibe freshId : String)
    (env : GenEnv) (v : Video) (st9 : PipelineState)
    (h : generateVideo st factId vibe env freshId = .ok (v, st9, false)) :
    st9 = st ∧ (∃ fr, st.facts.lookup factId = some fr) ∧
    st.generated.lookup (cacheKeyOf factId vibe) = some v := by
  unfold generateVideo at h
  cases hf : st.facts.lookup factId with
  | none => rw [hf] at h; simp at h
  | some factRec =>
    rw [hf] at h
    cases hc : st.generated.lookup (cacheKeyOf factId vibe) with
    | some w =>
      rw [hc] at h
      simp only [Except.ok.injEq, Prod.mk.injEq] at h
      obtain ⟨h1, h2, -⟩ := h
      subst h2
      rw [← h1]
      exact ⟨rfl, ⟨factRec, rfl⟩, rfl⟩
    | none => rw [hc] at h; simp at h

theorem generateVideo_miss_state (st : PipelineState) (factId vibe freshId : String)
    (env : GenEnv) (v : Video) (st9 : PipelineState)
    (h : generateVideo st factId vibe env freshId = .ok (v, st9, true)) :
    v.id = freshId ∧ st9.facts = st.facts ∧ st9.rendered = st.rendered ∧
    (∃ fr, st.facts.lookup factId = some fr) ∧
    st.generated.lookup (cacheKeyOf factId vibe) = none ∧
    st9.generated
      = insertEntry (insertEntry st.generated (cacheKeyOf factId vibe) v) freshId v := by
  unfold generateVideo at h
  cases hf : st.facts.lookup factId with
  | none => rw [hf] at h; simp at h
  | some factRec =>
    rw [hf] at h
    cases hc : st.generated.lookup (cacheKeyOf factId vibe) with
    | some w => rw [hc] at h; simp at h
    | none =>
      rw [hc] at h
      simp only [Except.ok.injEq, Prod.mk.injEq] at h
      obtain ⟨h1, h2, -⟩ := h
      subst h2
      rw [← h1]
      exact ⟨rfl, rfl, rfl, ⟨factRec, rfl⟩, rfl, rfl⟩

theorem lookup_double_insert {α : Type} (m : List (String × α)) (k1 k2 : String) (v : α) :
    (insertEntry (insertEntry m k1 v) k2 v).lookup k1 = some v := by
  by_cases hk : k1 = k2
  · rw [hk, lookup_insert_self]
  · rw [lookup_insert_ne _ _ _ _ hk, lookup_insert_self]

/-- C3: two successive `generate_video` calls for the same `(fact, vibe)`
return the very same video record, hence field-for-field identical
scripts; the second call leaves the store untouched and does not invoke
the script-generation capability (it returns `false` for any capability
environment), so the capability runs at most once per cache key. -/
theorem script_cache_idempotent (st st1 : PipelineState) (factId vibe id1 id2 : String)
    (env env2 : GenEnv) (v1 : Video) (invoked1 : Bool)
    (h : generateVideo st factId vibe env id1 = .ok (v1, st1, invoked1)) :
    generateVideo st1 factId vibe env2 id2 = .ok (v1, st1, false) := by
  cases invoked1 with
  | false =>
    obtain ⟨hst, ⟨fr, hf⟩, hc⟩ := generateVideo_hit_inv st factId vibe id1 env v1 st1 h
    subst hst
    exact generateVideo_hit st1 factId vibe id2 env2 fr v1 hf hc
  | true =>
    obtain ⟨-, hfacts, -, ⟨fr, hf⟩, -, hgen⟩ :=
      generateVideo_miss_state st factId vibe id1 env v1 st1 h
    refine generateVideo_hit st1 factId vibe id2 env2 fr v1 ?_ ?_
    · rw [hfacts, hf]
    · rw [hgen, lookup_double_insert]

/-- C3 witness: on the concrete store, a second generation call for the
same fact and vibe returns the identical video with no state change and
no capability invocation. -/
theorem script_cache_idempotent_witness :
    generateVideo exState1 "f1" "hype" exGenEnv "vid-2" = .ok (exVideo1, exState1, false) :=
  script_cache_idempotent exState0 exState1 "f1" "hype" "vid-1" "vid-2" exGenEnv exGenEnv
    exVideo1 true (by rfl)

/-- C6: after a generating `generate_video` call, the `(fact_id, vibe)`
cache key and the fresh video id both resolve in the video store to the
identical video record, and every subsequent pipeline operation preserves
this: a further `generate_video` call (with a fresh uuid id, the video id
itself being a uuid without underscore), any `render_video` call, and the
`get_video` endpoint under either key return that same record — the two
lookup keys never diverge. -/
theorem video_store_keys_never_diverge
    (st st1 : PipelineState) (factId vibe id1 : String) (v : Video) (env : GenEnv)
    (h : generateVideo st factId vibe env id1 = .ok (v, st1, true)) :
    (st1.generated.lookup (cacheKeyOf factId vibe) = some v ∧
     st1.generated.lookup v.id = some v) ∧
    (∀ factId2 vibe2 env2 id2 v2 st2 invoked2,
      generateVideo st1 factId2 vibe2 env2 id2 = .ok (v2, st2, invoked2) →
      st1.generated.lookup id2 = none →
      ('_' ∈ v.id.data → False) →
      st2.generated.lookup (cacheKeyOf factId vibe) = some v ∧
      st2.generated.lookup v.id = some v) ∧
    (∀ videoId2 voice2 rid2 ia2 renv2 r2 st2,
      renderVideo st1 videoId2 ia2 voice2 renv2 rid2 = .ok (r2, st2) →
      st2.generated.lookup (cacheKeyOf factId vibe) = some v ∧
      st2.generated.lookup v.id = some v) ∧
    getVideo st1 v.id = .ok v ∧ getVideo st1 (cacheKeyOf factId vibe) = .ok v := by
  obtain ⟨hid, hfacts, hrend, ⟨fr, hf⟩, hnone, hgen⟩ :=
    generateVideo_miss_state st factId vibe id1 env v st1 h
  have hA1 : st1.generated.lookup (cacheKeyOf factId vibe) = some v := by
    rw [hgen, lookup_double_insert]
  have hA2 : st1.generated.lookup v.id = some v := by
    rw [hgen, hid, lookup_insert_self]
  refine ⟨⟨hA1, hA2⟩, ?_, ?_, ?_, ?_⟩
  · intro factId2 vibe2 env2 id2 v2 st2 invoked2 h2 hfresh hu
    cases invoked2 with
    | false =>
      obtain ⟨hst2, -, -⟩ := generateVideo_hit_inv st1 factId2 vibe2 id2 env2 v2 st2 h2
      subst hst2
      exact ⟨hA1, hA2⟩
    | true =>
      obtain ⟨-, -, -, -, hnone2, hgen2⟩ :=
        generateVideo_miss_state st1 factId2 vibe2 id2 env2 v2 st2 h2
      have hckne1 : cacheKeyOf factId vibe ≠ cacheKeyOf factId2 vibe2 :=
        lookup_ne_of_some_none _ _ _ _ hA1 hnone2
      have hvidne1 : v.id ≠ cacheKeyOf factId2 vibe2 := by
        intro hx
        exact hu (hx ▸ underscore_mem_cacheKey factId2 vibe2)
      have hckne2 : cacheKeyOf factId vibe ≠ id2 :=
        lookup_ne_of_some_none _ _ _ _ hA1 hfresh
      have hvidne2 : v.id ≠ id2 := lookup_ne_of_some_none _ _ _ _ hA2 hfresh
      refine ⟨?_, ?_⟩
      · rw [hgen2, lookup_insert_ne _ _ _ _ hckne2, lookup_insert_ne _ _ _ _ hckne1]
        exact hA1
      · rw [hgen2, lookup_insert_ne _ _ _ _ hvidne2, lookup_insert_ne _ _ _ _ hvidne1]
        exact hA2
  · intro videoId2 voice2 rid2 ia2 renv2 r2 st2 h2
    obtain ⟨-, hst2⟩ := renderVideo_ok_inv st1 videoId2 voice2 rid2 ia2 renv2 r2 st2 h2
    subst hst2
    exact ⟨hA1, hA2⟩
  · unfold getVideo
    rw [hA2]
  · unfold getVideo
    rw [hA1]

/-- C6 witness: on the concrete store after one generation, the cache key
and the video id resolve to the identical record. -/
theorem video_store_keys_never_diverge_witness :
    exState1.generated.lookup (cacheKeyOf "f1" "hype") = some exVideo1 ∧
    exState1.generated.lookup exVideo1.id = some exVideo1 :=
  (video_store_keys_never_diverge exState0 exState1 "f1" "hype" "vid-1" exVideo1 exGenEnv
    (by rfl)).1

/-- C7: two `render_video` calls for the same video id, with their two
fresh render ids, produce render results carrying distinct render ids and
leave two distinct entries in the render store — renders are never
deduplicated. -/
theorem render_never_deduplicates
    (st st1 st2 : PipelineState) (videoId voice1 voice2 rid1 rid2 : String)
    (ia1 ia2 : Bool) (env1 env2 : RenderEnv) (r1 r2 : RenderResult)
    (h1 : renderVideo st videoId ia1 voice1 env1 rid1 = .ok (r1, st1))
    (h2 : renderVideo st1 videoId ia2 voice2 env2 rid2 = .ok (r2, st2))
    (hne : rid1 ≠ rid2) :
    r1.render_id ≠ r2.render_id ∧ r1.render_id = rid1 ∧ r2.render_id = rid2 ∧
    st2.rendered.lookup rid1 = some r1 ∧ st2.rendered.lookup rid2 = some r2 := by
  obtain ⟨hr1, hs1⟩ := renderVideo_ok_inv st videoId voice1 rid1 ia1 env1 r1 st1 h1
  obtain ⟨hr2, hs2⟩ := renderVideo_ok_inv st1 videoId voice2 rid2 ia2 env2 r2 st2 h2
  subst hs1
  subst hs2
  refine ⟨?_, hr1, hr2, ?_, ?_⟩
  · rw [hr1, hr2]
    exact hne
  · show (insertEntry (insertEntry st.rendered rid1 r1) rid2 r2).lookup rid1 = some r1
    rw [lookup_insert_ne _ _ _ _ hne, lookup_insert_self]
  · show (insertEntry (insertEntry st.rendered rid1 r1) rid2 r2).lookup rid2 = some r2
    rw [lookup_insert_self]

/-- C7 witness: two concrete renders of the same video under render ids
r1 and r2 leave two distinct entries. -/
theorem render_never_deduplicates_witness :
    (exRender "r1").render_id ≠ (exRender "r2").render_id ∧
    (exRender "r1").render_id = "r1" ∧ (exRender "r2").render_id = "r2" ∧
    exStateR2.rendered.lookup "r1" = some (exRender "r1") ∧
    exStateR2.rendered.lookup "r2" = some (exRender "r2") :=
  render_never_deduplicates exState1 exStateR1 exStateR2 "vid-1" "seal" "seal" "r1" "r2"
    true true noToolchainEnv noToolchainEnv (exRender "r1") (exRender "r2")
    (by rfl) (by rfl) (by decide)

/-- C1 (amended): when the toolchain probe fails, `render_video` on any
known video id never raises and always returns a result whose status is
pending_ffmpeg (the spec's pending_toolchain); but the result carries no
placeholder-artifact path — its video_path is absent. A placeholder path
is attached only on the other branch, when the probe succeeds and the
assembly invocation itself then fails. -/
theorem render_no_toolchain_total (st : PipelineState) (videoId voice renderId : String)
    (includeAudio : Bool) (env : RenderEnv) (v : Video)
    (hknown : st.generated.lookup videoId = some v)
    (hff : env.ffmpegAvailable = false) :
    ∃ r st9, renderVideo st videoId includeAudio voice env renderId = .ok (r, st9) ∧
      r.status = "pending_ffmpeg" ∧ r.video_path = none := by
  unfold renderVideo
  rw [hknown]
  simp only [hff]
  cases hA : includeAudio && env.ttsAvailable && env.ttsSucceeds <;>
    exact ⟨_, _, rfl, rfl, rfl⟩

/-- C1 witness: a toolchain-absent render of the concrete known video
returns pending_ffmpeg with no video path and does not raise. -/
theorem render_no_toolchain_total_witness :
    ∃ r st9, renderVideo exState1 "vid-1" true "seal" noToolchainEnv "rid-w" = .ok (r, st9) ∧
      r.status = "pending_ffmpeg" ∧ r.video_path = none :=
  render_no_toolchain_total exState1 "vid-1" "seal" "rid-w" true noToolchainEnv exVideo1
    (by rfl) (by rfl)

/-- C1 counterexample: at a concrete store holding one generated video and
with the toolchain absent, `render_video` returns status pending_ffmpeg
with video_path null — there is no non-null placeholder-artifact path in
the result, contrary to the claim as stated. -/
theorem render_no_toolchain_counterexample :
    (renderVideo exState1 "vid-1" true "seal" noToolchainEnv "rid-c").toOption.map
      (fun p => (p.1.status, p.1.video_path)) = some ("pending_ffmpeg", none) := by
  rfl

end Dewi
